import Mathlib

/-!
Shallow embedding of the parkranger sensing/inference pipeline
(`src/parkranger/`): the RTT tracker (`capture/rtt.py`), the packet
sniffer's per-packet processing (`capture/sniffer.py`), the geolocator
(`geo/location.py`), the city ring query (`geo/cities.py`), the SQLite
store (`db.py`) and the fingerprint engine (`analysis/fingerprint.py`).

Python floats are modelled as exact rationals (`ℚ`) except in the
haversine geometry, which is transcendental and modelled over `ℝ`.
Python dicts are modelled as insertion-ordered association lists.
-/

namespace Parkranger

/-- Association-list lookup, modelling Python `dict` read (`d[k]` / `k in d`). -/
def assocGet {κ ν : Type} [DecidableEq κ] (m : List (κ × ν)) (k : κ) : Option ν :=
  match m with
  | [] => none
  | (k', v) :: rest => if k' = k then some v else assocGet rest k

/-- Association-list write, modelling Python `d[k] = v`: an existing key keeps
its position, a new key is appended. -/
def assocSet {κ ν : Type} [DecidableEq κ] (m : List (κ × ν)) (k : κ) (v : ν) :
    List (κ × ν) :=
  match m with
  | [] => [(k, v)]
  | (k', v') :: rest =>
      if k' = k then (k', v) :: rest else (k', v') :: assocSet rest k v

/-- Association-list removal, modelling Python `d.pop(k)`. -/
def assocRemove {κ ν : Type} [DecidableEq κ] (m : List (κ × ν)) (k : κ) :
    List (κ × ν) :=
  match m with
  | [] => []
  | (k', v') :: rest =>
      if k' = k then rest else (k', v') :: assocRemove rest k

/-- A JSON value, the neutral form produced by `to_dict` methods and stored by
`json.dumps` / recovered by `json.loads` (the standard library's text encoding
is a bijection on these trees, so it is modelled as the identity). -/
inductive JValue : Type where
  | null : JValue
  | bool (b : Bool) : JValue
  | num (q : ℚ) : JValue
  | str (s : String) : JValue
  | arr (xs : List JValue) : JValue
  | obj (fields : List (String × JValue)) : JValue

/-- The `GeoLocation` dataclass of `geo/location.py`. -/
structure GeoLocation : Type where
  ip : String
  latitude : ℚ
  longitude : ℚ
  city : Option String := none
  region : Option String := none
  country : Option String := none
  country_code : Option String := none
  isp : Option String := none
  org : Option String := none
  timezone : Option String := none
deriving DecidableEq

/-- Optional string to JSON, as Python serializes `Optional[str]`. -/
def jsonOfOptStr : Option String → JValue
  | some s => JValue.str s
  | none => JValue.null

/-- The `GeoLocation.to_dict` method of `geo/location.py`. -/
def GeoLocation.to_dict (l : GeoLocation) : List (String × JValue) :=
  [("ip", JValue.str l.ip),
   ("latitude", JValue.num l.latitude),
   ("longitude", JValue.num l.longitude),
   ("city", jsonOfOptStr l.city),
   ("region", jsonOfOptStr l.region),
   ("country", jsonOfOptStr l.country),
   ("country_code", jsonOfOptStr l.country_code),
   ("isp", jsonOfOptStr l.isp),
   ("org", jsonOfOptStr l.org),
   ("timezone", jsonOfOptStr l.timezone)]

/-- The `RTTMeasurement` dataclass of `capture/rtt.py`. -/
structure RTTMeasurement : Type where
  tcp_rtt_samples : List ℚ := []
  icmp_rtt_samples : List ℚ := []
  last_updated : ℚ := 0
deriving DecidableEq

/-- The `tcp_rtt` property: minimum TCP sample, `None` when empty. -/
def RTTMeasurement.tcp_rtt (m : RTTMeasurement) : Option ℚ :=
  m.tcp_rtt_samples.min?

/-- The `icmp_rtt` property: minimum ICMP sample, `None` when empty. -/
def RTTMeasurement.icmp_rtt (m : RTTMeasurement) : Option ℚ :=
  m.icmp_rtt_samples.min?

/-- The `rtt_difference` property: `max(0, tcp_rtt - icmp_rtt)`, `None` when
either sample list is empty. -/
def RTTMeasurement.rtt_difference (m : RTTMeasurement) : Option ℚ :=
  match m.tcp_rtt, m.icmp_rtt with
  | some t, some i => some (max 0 (t - i))
  | _, _ => none

/-- Keep the last `n` elements of a list, modelling Python `l[-n:]`. -/
def keepLast {α : Type} (n : ℕ) (l : List α) : List α :=
  l.drop (l.length - n)

/-- The `add_tcp_sample` method: append, trim to the most recent 100 samples,
stamp `last_updated` with the current time. -/
def RTTMeasurement.add_tcp_sample (m : RTTMeasurement) (now rtt_ms : ℚ) :
    RTTMeasurement :=
  let s := m.tcp_rtt_samples ++ [rtt_ms]
  { m with
    tcp_rtt_samples := if 100 < s.length then keepLast 100 s else s
    last_updated := now }

/-- The `add_icmp_sample` method: append, trim to the most recent 20 samples. -/
def RTTMeasurement.add_icmp_sample (m : RTTMeasurement) (now rtt_ms : ℚ) :
    RTTMeasurement :=
  let s := m.icmp_rtt_samples ++ [rtt_ms]
  { m with
    icmp_rtt_samples := if 20 < s.length then keepLast 20 s else s
    last_updated := now }

/-- A TCP 4-tuple `(src_ip, src_port, dst_ip, dst_port)` as used for the
pending-SYN dictionary keys in `capture/rtt.py`. -/
abbrev FlowKey : Type := String × ℕ × String × ℕ

/-- The mutable state of `RTTTracker` (`capture/rtt.py`): `_measurements` is a
`defaultdict(RTTMeasurement)` and `_pending_syns` maps a flow key to the SYN
send time.  The ping cache only backs the external `ping` subprocess and is
not modelled. -/
structure RTTTracker : Type where
  measurements : List (String × RTTMeasurement) := []
  pending_syns : List (FlowKey × ℚ) := []
deriving DecidableEq

/-- A fresh tracker, as built by `RTTTracker.__init__`. -/
def RTTTracker.init : RTTTracker := {}

/-- Defaultdict read `self._measurements[ip]`: a missing key inserts a fresh
`RTTMeasurement()` (whose `last_updated` defaults to the current time). -/
def RTTTracker.measurementEntry (t : RTTTracker) (now : ℚ) (ip : String) :
    RTTMeasurement × RTTTracker :=
  match assocGet t.measurements ip with
  | some m => (m, t)
  | none =>
      let m : RTTMeasurement := { last_updated := now }
      (m, { t with measurements := assocSet t.measurements ip m })

/-- The `record_syn` method: store the send time under the 4-tuple key. -/
def RTTTracker.record_syn (t : RTTTracker) (now : ℚ) (src_ip : String)
    (src_port : ℕ) (dst_ip : String) (dst_port : ℕ) : RTTTracker :=
  { t with pending_syns := assocSet t.pending_syns (src_ip, src_port, dst_ip, dst_port) now }

/-- The `record_syn_ack` method: look up the reversed key
`(dst, dport, src, sport)`; on a hit pop it, compute
`ms = (now - send_time) * 1000`, append a TCP sample for the peer `src_ip`
(the sender of the SYN-ACK) and return the sample; otherwise return `None`. -/
def RTTTracker.record_syn_ack (t : RTTTracker) (now : ℚ) (src_ip : String)
    (src_port : ℕ) (dst_ip : String) (dst_port : ℕ) : Option ℚ × RTTTracker :=
  let key : FlowKey := (dst_ip, dst_port, src_ip, src_port)
  match assocGet t.pending_syns key with
  | some syn_time =>
      let rtt_ms := (now - syn_time) * 1000
      let t1 : RTTTracker := { t with pending_syns := assocRemove t.pending_syns key }
      let (m, t2) := t1.measurementEntry now src_ip
      (some rtt_ms,
       { t2 with measurements := assocSet t2.measurements src_ip (m.add_tcp_sample now rtt_ms) })
  | none => (none, t)

/-- The `get_measurement` method: a plain defaultdict read, which inserts an
empty measurement when the IP is unknown. -/
def RTTTracker.get_measurement (t : RTTTracker) (now : ℚ) (ip : String) :
    RTTMeasurement × RTTTracker :=
  t.measurementEntry now ip

/-- The `get_all_measurements` method: a by-value copy of the dictionary. -/
def RTTTracker.get_all_measurements (t : RTTTracker) :
    List (String × RTTMeasurement) :=
  t.measurements

/-- Connection states used by `capture/sniffer.py`. -/
inductive ConnState : Type where
  | unknown : ConnState
  | syn_sent : ConnState
  | syn_ack_received : ConnState
  | established : ConnState
  | closed : ConnState
deriving DecidableEq

/-- Position of a state in the handshake chain
`unknown → syn_sent → syn_ack_received → established` (with `closed` last). -/
def stateRank : ConnState → ℕ
  | ConnState.unknown => 0
  | ConnState.syn_sent => 1
  | ConnState.syn_ack_received => 2
  | ConnState.established => 3
  | ConnState.closed => 4

/-- The canonical connection key built at `sniffer.py:136`:
`(min(src_ip, dst_ip), min(src_port, dst_port), max(src_ip, dst_ip),
max(src_port, dst_port))` — IPs and ports are min/maxed independently. -/
def conn_key (src_ip : String) (src_port : ℕ) (dst_ip : String) (dst_port : ℕ) :
    String × ℕ × String × ℕ :=
  (min src_ip dst_ip, min src_port dst_port, max src_ip dst_ip, max src_port dst_port)

/-- The flag-dispatch portion of `PacketSniffer._process_packet`
(`sniffer.py:161-193`) acting on one connection's state.  The returned
boolean records whether an exception escaped: the `ACK` branch calls
`self.rtt_tracker.record_ack(...)` whenever the packet's acknowledgment
number is truthy, and the outgoing-data branch calls
`self.rtt_tracker.record_data_sent(...)`; neither method exists on
`RTTTracker`, so those calls raise `AttributeError` and abort the remaining
processing of the packet (mutations already made are kept). -/
def processPacketStep (flags ackNo payloadLen : ℕ) (is_outgoing : Bool)
    (st : ConnState) : ConnState × Bool :=
  let branch : ConnState × Bool :=
    if flags &&& 0x02 ≠ 0 ∧ flags &&& 0x10 = 0 then
      (ConnState.syn_sent, false)
    else if flags &&& 0x02 ≠ 0 ∧ flags &&& 0x10 ≠ 0 then
      (ConnState.syn_ack_received, false)
    else if flags &&& 0x10 ≠ 0 then
      let st' := if st = ConnState.syn_ack_received then ConnState.established else st
      (st', decide (ackNo ≠ 0))
    else (st, false)
  if branch.2 then branch
  else if is_outgoing ∧ payloadLen ≠ 0 then (branch.1, true)
  else if flags &&& 0x01 ≠ 0 ∨ flags &&& 0x04 ≠ 0 then (ConnState.closed, false)
  else branch

/-- Python `str.startswith`, decided on the codepoint sequence. -/
def pyStartswith (s p : String) : Bool :=
  p.data.isPrefixOf s.data

/-- The `GeoLocator._is_private_ip` check of `geo/location.py`: loopback,
`10.0.0.0/8`, `192.168.0.0/16` and `172.16.0.0/12` prefixes. -/
def is_private_ip (ip : String) : Bool :=
  if pyStartswith ip "127." || pyStartswith ip "10." || pyStartswith ip "192.168." then
    true
  else if pyStartswith ip "172." then
    match (ip.splitOn ".")[1]? with
    | some s =>
        match s.toInt? with
        | some n => decide (16 ≤ n ∧ n ≤ 31)
        | none => false
    | none => false
  else false

/-- A row of the durable `geo_cache` table of `db.py`. -/
structure GeoCacheRow : Type where
  ip : String
  latitude : ℚ
  longitude : ℚ
  city : Option String := none
  region : Option String := none
  country : Option String := none
  country_code : Option String := none
  isp : Option String := none
  org : Option String := none
  timezone : Option String := none
  cached_at : ℚ
deriving DecidableEq

/-- The in-memory state of `GeoLocator` (`geo/location.py`): the `_cache`
and `_cache_time` dictionaries. -/
structure GeoState : Type where
  cache : List (String × GeoLocation) := []
  cache_time : List (String × ℚ) := []
deriving DecidableEq

/-- The tier cascade of `GeoLocator.lookup` (`geo/location.py:223-229`):
local database first, then provider A, then provider B; first non-null
wins. -/
def first_tier_result (g a i : Option GeoLocation) : Option GeoLocation :=
  match g with
  | some r => some r
  | none =>
      match a with
      | some r => some r
      | none => i

/-- The `GeoLocator.lookup` method (`geo/location.py:212-236`).  The three
external tiers — local GeoIP database, HTTP provider A (`ip-api.com`) and
HTTP provider B (`ipinfo.io`) — are I/O collaborators, so each is passed in
as the optional result its `_lookup_*` helper would return.  The durable
`geo_cache` table of the store is threaded through to expose its (absence
of) mutation. -/
def GeoLocator.lookup (geoip_result ipapi_result ipinfo_result : Option GeoLocation)
    (now : ℚ) (use_cache : Bool) (s : GeoState) (store : List GeoCacheRow)
    (ip : String) : Option GeoLocation × GeoState × List GeoCacheRow :=
  if is_private_ip ip then (none, s, store)
  else
    let cached : Option GeoLocation :=
      if use_cache then
        match assocGet s.cache ip with
        | some loc =>
            if now - ((assocGet s.cache_time ip).getD 0) < 3600 then some loc
            else none
        | none => none
      else none
    match cached with
    | some loc => (some loc, s, store)
    | none =>
        let result : Option GeoLocation :=
          first_tier_result geoip_result ipapi_result ipinfo_result
        match result with
        | some loc =>
            (some loc,
             { cache := assocSet s.cache ip loc,
               cache_time := assocSet s.cache_time ip now },
             store)
        | none => (none, s, store)

/-- The `City` dataclass of `geo/cities.py`. -/
structure City : Type where
  name : String
  country : String
  latitude : ℝ
  longitude : ℝ
  population : ℤ

/-- The bundled `MAJOR_CITIES` dataset of `geo/cities.py` (`self.cities` of
`CityFinder`). -/
def MAJOR_CITIES : List City :=
  [City.mk "Tokyo" "Japan" 35.6762 139.6503 37400068,
   City.mk "Delhi" "India" 28.6139 77.2090 28514000,
   City.mk "Shanghai" "China" 31.2304 121.4737 25582000,
   City.mk "São Paulo" "Brazil" (-23.5505) (-46.6333) 21650000,
   City.mk "Mexico City" "Mexico" 19.4326 (-99.1332) 21581000,
   City.mk "Cairo" "Egypt" 30.0444 31.2357 20076000,
   City.mk "Mumbai" "India" 19.0760 72.8777 19980000,
   City.mk "Beijing" "China" 39.9042 116.4074 19618000,
   City.mk "Dhaka" "Bangladesh" 23.8103 90.4125 19578000,
   City.mk "Osaka" "Japan" 34.6937 135.5023 19281000,
   City.mk "New York" "USA" 40.7128 (-74.0060) 18819000,
   City.mk "Karachi" "Pakistan" 24.8607 67.0011 15400000,
   City.mk "Buenos Aires" "Argentina" (-34.6037) (-58.3816) 14967000,
   City.mk "Chongqing" "China" 29.4316 106.9123 14838000,
   City.mk "Istanbul" "Turkey" 41.0082 28.9784 14751000,
   City.mk "Kolkata" "India" 22.5726 88.3639 14681000,
   City.mk "Manila" "Philippines" 14.5995 120.9842 13482000,
   City.mk "Lagos" "Nigeria" 6.5244 3.3792 13463000,
   City.mk "Rio de Janeiro" "Brazil" (-22.9068) (-43.1729) 13293000,
   City.mk "Tianjin" "China" 39.3434 117.3616 13215000,
   City.mk "Kinshasa" "DR Congo" (-4.4419) 15.2663 13171000,
   City.mk "Guangzhou" "China" 23.1291 113.2644 12638000,
   City.mk "Los Angeles" "USA" 34.0522 (-118.2437) 12458000,
   City.mk "Moscow" "Russia" 55.7558 37.6173 12410000,
   City.mk "Shenzhen" "China" 22.5431 114.0579 11908000,
   City.mk "Lahore" "Pakistan" 31.5497 74.3436 11738000,
   City.mk "Bangalore" "India" 12.9716 77.5946 11440000,
   City.mk "Paris" "France" 48.8566 2.3522 10901000,
   City.mk "Bogotá" "Colombia" 4.7110 (-74.0721) 10574000,
   City.mk "Jakarta" "Indonesia" (-6.2088) 106.8456 10562000,
   City.mk "Chennai" "India" 13.0827 80.2707 10456000,
   City.mk "Lima" "Peru" (-12.0464) (-77.0428) 10391000,
   City.mk "Bangkok" "Thailand" 13.7563 100.5018 10156000,
   City.mk "Seoul" "South Korea" 37.5665 126.9780 9963000,
   City.mk "Nagoya" "Japan" 35.1815 136.9066 9507000,
   City.mk "Hyderabad" "India" 17.3850 78.4867 9482000,
   City.mk "London" "UK" 51.5074 (-0.1278) 9046000,
   City.mk "Tehran" "Iran" 35.6892 51.3890 8896000,
   City.mk "Chicago" "USA" 41.8781 (-87.6298) 8864000,
   City.mk "Chengdu" "China" 30.5728 104.0668 8813000,
   City.mk "Nanjing" "China" 32.0603 118.7969 8505000,
   City.mk "Wuhan" "China" 30.5928 114.3055 8364000,
   City.mk "Ho Chi Minh City" "Vietnam" 10.8231 106.6297 8314000,
   City.mk "Luanda" "Angola" (-8.8390) 13.2894 8045000,
   City.mk "Ahmedabad" "India" 23.0225 72.5714 7681000,
   City.mk "Kuala Lumpur" "Malaysia" 3.1390 101.6869 7564000,
   City.mk "Hong Kong" "China" 22.3193 114.1694 7482000,
   City.mk "Hangzhou" "China" 30.2741 120.1551 7236000,
   City.mk "Riyadh" "Saudi Arabia" 24.7136 46.6753 7231000,
   City.mk "Surat" "India" 21.1702 72.8311 6564000,
   City.mk "Houston" "USA" 29.7604 (-95.3698) 6371000,
   City.mk "Dallas" "USA" 32.7767 (-96.7970) 6366000,
   City.mk "Pune" "India" 18.5204 73.8567 6276000,
   City.mk "Singapore" "Singapore" 1.3521 103.8198 5850000,
   City.mk "Santiago" "Chile" (-33.4489) (-70.6693) 5743000,
   City.mk "Madrid" "Spain" 40.4168 (-3.7038) 5631000,
   City.mk "Toronto" "Canada" 43.6532 (-79.3832) 5429000,
   City.mk "Dar es Salaam" "Tanzania" (-6.7924) 39.2083 5383000,
   City.mk "Johannesburg" "South Africa" (-26.2041) 28.0473 5283000,
   City.mk "Barcelona" "Spain" 41.3851 2.1734 5258000,
   City.mk "Saint Petersburg" "Russia" 59.9311 30.3609 5191000,
   City.mk "Sydney" "Australia" (-33.8688) 151.2093 5131000,
   City.mk "Melbourne" "Australia" (-37.8136) 144.9631 4850000,
   City.mk "Phoenix" "USA" 33.4484 (-112.0740) 4845000,
   City.mk "Philadelphia" "USA" 39.9526 (-75.1652) 4807000,
   City.mk "San Francisco" "USA" 37.7749 (-122.4194) 4731000,
   City.mk "Nairobi" "Kenya" (-1.2921) 36.8219 4397000,
   City.mk "Washington DC" "USA" 38.9072 (-77.0369) 4384000,
   City.mk "Boston" "USA" 42.3601 (-71.0589) 4309000,
   City.mk "Detroit" "USA" 42.3314 (-83.0458) 3559000,
   City.mk "Atlanta" "USA" 33.7490 (-84.3880) 3500000,
   City.mk "Miami" "USA" 25.7617 (-80.1918) 3400000,
   City.mk "Seattle" "USA" 47.6062 (-122.3321) 3433000,
   City.mk "Denver" "USA" 39.7392 (-104.9903) 2727000,
   City.mk "Minneapolis" "USA" 44.9778 (-93.2650) 2474000,
   City.mk "San Diego" "USA" 32.7157 (-117.1611) 2381000,
   City.mk "Berlin" "Germany" 52.5200 13.4050 3645000,
   City.mk "Rome" "Italy" 41.9028 12.4964 4210000,
   City.mk "Milan" "Italy" 45.4642 9.1900 3140000,
   City.mk "Amsterdam" "Netherlands" 52.3676 4.9041 1140000,
   City.mk "Vienna" "Austria" 48.2082 16.3738 1888000,
   City.mk "Warsaw" "Poland" 52.2297 21.0122 1765000,
   City.mk "Budapest" "Hungary" 47.4979 19.0402 1752000,
   City.mk "Prague" "Czech Republic" 50.0755 14.4378 1301000,
   City.mk "Brussels" "Belgium" 50.8503 4.3517 1175000,
   City.mk "Stockholm" "Sweden" 59.3293 18.0686 1515000,
   City.mk "Copenhagen" "Denmark" 55.6761 12.5683 1280000,
   City.mk "Oslo" "Norway" 59.9139 10.7522 1019000,
   City.mk "Helsinki" "Finland" 60.1695 24.9354 1268000,
   City.mk "Dublin" "Ireland" 53.3498 (-6.2603) 1173000,
   City.mk "Lisbon" "Portugal" 38.7223 (-9.1393) 2942000,
   City.mk "Athens" "Greece" 37.9838 23.7275 3153000,
   City.mk "Munich" "Germany" 48.1351 11.5820 1472000,
   City.mk "Frankfurt" "Germany" 50.1109 8.6821 753000,
   City.mk "Zurich" "Switzerland" 47.3769 8.5417 415000,
   City.mk "Geneva" "Switzerland" 46.2044 6.1432 201000,
   City.mk "Vancouver" "Canada" 49.2827 (-123.1207) 2463000,
   City.mk "Montreal" "Canada" 45.5017 (-73.5673) 4098000,
   City.mk "Calgary" "Canada" 51.0447 (-114.0719) 1239000,
   City.mk "Ottawa" "Canada" 45.4215 (-75.6972) 934000,
   City.mk "Tel Aviv" "Israel" 32.0853 34.7818 3785000,
   City.mk "Dubai" "UAE" 25.2048 55.2708 3137000,
   City.mk "Abu Dhabi" "UAE" 24.4539 54.3773 1420000,
   City.mk "Doha" "Qatar" 25.2854 51.5310 956000,
   City.mk "Kuwait City" "Kuwait" 29.3759 47.9774 2380000,
   City.mk "Cape Town" "South Africa" (-33.9249) 18.4241 3740000,
   City.mk "Auckland" "New Zealand" (-36.8485) 174.7633 1571000,
   City.mk "Brisbane" "Australia" (-27.4698) 153.0251 2362000,
   City.mk "Perth" "Australia" (-31.9505) 115.8605 2022000]

/-- Python `math.atan2(y, x)`: the angle of the point `(x, y)`. -/
noncomputable def atan2 (y x : ℝ) : ℝ :=
  if 0 < x then Real.arctan (y / x)
  else if x < 0 ∧ 0 ≤ y then Real.arctan (y / x) + Real.pi
  else if x < 0 ∧ y < 0 then Real.arctan (y / x) - Real.pi
  else if x = 0 ∧ 0 < y then Real.pi / 2
  else if x = 0 ∧ y < 0 then -(Real.pi / 2)
  else 0

/-- The `CityFinder.haversine_distance` static method: great-circle distance
on a sphere of radius 6371 km. -/
noncomputable def haversine_distance (lat1 lon1 lat2 lon2 : ℝ) : ℝ :=
  let R : ℝ := 6371
  let lat1_rad := lat1 * (Real.pi / 180)
  let lat2_rad := lat2 * (Real.pi / 180)
  let delta_lat := (lat2 - lat1) * (Real.pi / 180)
  let delta_lon := (lon2 - lon1) * (Real.pi / 180)
  let a := Real.sin (delta_lat / 2) ^ 2 +
    Real.cos lat1_rad * Real.cos lat2_rad * Real.sin (delta_lon / 2) ^ 2
  let c := 2 * atan2 (Real.sqrt a) (Real.sqrt (1 - a))
  R * c

/-- An element of the result list of `find_cities_near_ring`: the city's
fields together with the two computed distances. -/
structure RingCity : Type where
  city : City
  distance_from_center : ℝ
  distance_from_ring : ℝ

/-- The comparison behind `results.sort(key=lambda x: (-x["population"],
x["distance_from_ring"]))`: non-strict lexicographic order on the sort key. -/
noncomputable def ringSortLe (a b : RingCity) : Bool :=
  decide (b.city.population < a.city.population) ||
    (decide (a.city.population = b.city.population) &&
      decide (a.distance_from_ring ≤ b.distance_from_ring))

/-- The `CityFinder.find_cities_near_ring` method (`geo/cities.py:155-178`):
keep cities whose distance from the ring is within the tolerance, sort by
population descending then ring distance ascending, truncate.  `cities`
models `self.cities`. -/
noncomputable def find_cities_near_ring (cities : List City)
    (center_lat center_lon ring_radius_km tolerance_km : ℝ) (max_results : ℕ) :
    List RingCity :=
  let results := cities.filterMap (fun city =>
    let distance := haversine_distance center_lat center_lon city.latitude city.longitude
    let distance_from_ring := |distance - ring_radius_km|
    if distance_from_ring ≤ tolerance_km then
      some { city := city, distance_from_center := distance,
             distance_from_ring := distance_from_ring }
    else none)
  (results.mergeSort ringSortLe).take max_results

/-- A row of the `fingerprints` table of `db.py`: `location_json` and
`possible_cities_json` hold JSON text (modelled as the parsed tree),
`is_vpn_likely` is stored as a 0/1 integer. -/
structure FingerprintRow : Type where
  ip : String
  location_json : Option JValue
  tcp_rtt_ms : Option ℚ
  icmp_rtt_ms : Option ℚ
  rtt_difference_ms : Option ℚ
  estimated_distance_km : Option ℚ
  possible_cities_json : Option JValue
  confidence : ℚ
  last_updated : ℚ
  is_vpn_likely : ℤ

/-- SQLite `INSERT OR REPLACE` keyed by the `ip` primary key. -/
def upsertRow (db : List FingerprintRow) (row : FingerprintRow) :
    List FingerprintRow :=
  if db.any (fun r => r.ip == row.ip) then
    db.map (fun r => if r.ip == row.ip then row else r)
  else db ++ [row]

/-- The row written by `Database.save_fingerprint` (`db.py:80-99`): the
location dict serializes to JSON text unless it is falsy (`None` or empty,
storing SQL `NULL`), the cities list always serializes, the boolean is
encoded as a 0/1 integer. -/
def fingerprint_row (ip : String)
    (location_dict : Option (List (String × JValue)))
    (tcp_rtt_ms icmp_rtt_ms rtt_difference_ms estimated_distance_km : Option ℚ)
    (possible_cities : List JValue) (confidence last_updated : ℚ)
    (is_vpn_likely : Bool) : FingerprintRow :=
  { ip := ip
    location_json :=
      match location_dict with
      | some d => if d.isEmpty then none else some (JValue.obj d)
      | none => none
    tcp_rtt_ms := tcp_rtt_ms
    icmp_rtt_ms := icmp_rtt_ms
    rtt_difference_ms := rtt_difference_ms
    estimated_distance_km := estimated_distance_km
    possible_cities_json := some (JValue.arr possible_cities)
    confidence := confidence
    last_updated := last_updated
    is_vpn_likely := if is_vpn_likely then 1 else 0 }

/-- The `Database.save_fingerprint` method (`db.py:64-100`): build the row
and `INSERT OR REPLACE` it. -/
def Database.save_fingerprint (ip : String)
    (location_dict : Option (List (String × JValue)))
    (tcp_rtt_ms icmp_rtt_ms rtt_difference_ms estimated_distance_km : Option ℚ)
    (possible_cities : List JValue) (confidence last_updated : ℚ)
    (is_vpn_likely : Bool) (db : List FingerprintRow) : List FingerprintRow :=
  upsertRow db
    (fingerprint_row ip location_dict tcp_rtt_ms icmp_rtt_ms rtt_difference_ms
      estimated_distance_km possible_cities confidence last_updated is_vpn_likely)

/-- One entry of the list returned by `Database.load_all_fingerprints`. -/
structure LoadedFingerprint : Type where
  ip : String
  location : Option JValue
  tcp_rtt_ms : Option ℚ
  icmp_rtt_ms : Option ℚ
  rtt_difference_ms : Option ℚ
  estimated_distance_km : Option ℚ
  possible_cities : JValue
  confidence : ℚ
  last_updated : ℚ
  is_vpn_likely : Bool

/-- Decoding of one row inside `Database.load_all_fingerprints`
(`db.py:102-125`): `json.loads` on the non-null JSON columns, `[]` for a
null/empty cities column, `bool(...)` on the 0/1 integer. -/
def Database.load_row (r : FingerprintRow) : LoadedFingerprint :=
  { ip := r.ip
    location := r.location_json
    tcp_rtt_ms := r.tcp_rtt_ms
    icmp_rtt_ms := r.icmp_rtt_ms
    rtt_difference_ms := r.rtt_difference_ms
    estimated_distance_km := r.estimated_distance_km
    possible_cities :=
      match r.possible_cities_json with
      | some j => j
      | none => JValue.arr []
    confidence := r.confidence
    last_updated := r.last_updated
    is_vpn_likely := r.is_vpn_likely != 0 }

/-- The `Database.load_all_fingerprints` method: decode every row. -/
def Database.load_all_fingerprints (db : List FingerprintRow) :
    List LoadedFingerprint :=
  db.map Database.load_row

/-- The `VPNFingerprint` dataclass of `analysis/fingerprint.py`. -/
structure VPNFingerprint : Type where
  ip : String
  location : Option GeoLocation := none
  tcp_rtt_ms : Option ℚ := none
  icmp_rtt_ms : Option ℚ := none
  rtt_difference_ms : Option ℚ := none
  estimated_distance_km : Option ℚ := none
  possible_cities : List JValue := []
  confidence : ℚ := 0
  last_updated : ℚ := 0
  is_vpn_likely : Bool := false

/-- The `VPNFingerprinter._save_to_db` call shape: explode a fingerprint into
the arguments of `Database.save_fingerprint`. -/
def save_fingerprint_of (f : VPNFingerprint) (db : List FingerprintRow) :
    List FingerprintRow :=
  Database.save_fingerprint f.ip (f.location.map GeoLocation.to_dict)
    f.tcp_rtt_ms f.icmp_rtt_ms f.rtt_difference_ms f.estimated_distance_km
    f.possible_cities f.confidence f.last_updated f.is_vpn_likely db

/-- The operator-configurable constants read from `config.py` by the
fingerprint engine. -/
structure AnalyzeConfig : Type where
  speed_of_light_km_ms : ℚ := 200
  vpn_latency_offset_ms : ℚ := 0

/-- The `VPNFingerprinter._rtt_to_distance_km` method: one-way time times
propagation speed. -/
def rtt_to_distance_km (cfg : AnalyzeConfig) (rtt_ms : ℚ) : ℚ :=
  (rtt_ms / 2) * cfg.speed_of_light_km_ms

/-- The Python truthiness guard
`measurement.rtt_difference and measurement.rtt_difference > 5`:
true exactly when the difference is defined (and nonzero) and exceeds 5. -/
def rttDiffBoost : Option ℚ → Bool
  | some d => decide (5 < d)
  | none => false

/-- The `VPNFingerprinter._calculate_confidence` method
(`analysis/fingerprint.py:60-85`). -/
def calculate_confidence (m : RTTMeasurement) : ℚ :=
  if m.tcp_rtt_samples = [] ∨ m.icmp_rtt_samples = [] then
    if m.icmp_rtt_samples ≠ [] then 0.1 else 0
  else
    let tcp_sample_score := min ((m.tcp_rtt_samples.length : ℚ) / 10) 1
    let icmp_sample_score := min ((m.icmp_rtt_samples.length : ℚ) / 5) 1
    let tcp_variance_score :=
      if 1 < m.tcp_rtt_samples.length then
        let best := m.tcp_rtt.getD 0
        let tcp_variance :=
          ((m.tcp_rtt_samples.map (fun x => (x - best) ^ 2)).sum) /
            (m.tcp_rtt_samples.length : ℚ)
        max 0 (1 - tcp_variance / 100)
      else 0.5
    let base := tcp_sample_score * 0.4 + icmp_sample_score * 0.3 +
      tcp_variance_score * 0.3
    if rttDiffBoost m.rtt_difference then min (base * 1.2) 1 else base

/-- The fingerprint-updating portion of `VPNFingerprinter.analyze_ip`
(`analysis/fingerprint.py:87-147`), as a pure function of the collaborators'
results: `lookup_result` is what `self.geolocator.lookup(ip)` would return
(consulted only when the fingerprint has no location yet), `find_cities`
stands for the injected `self.city_finder.find_cities_near_ring`, and `m` is
the measurement snapshot after any ping. -/
def analyze_update (cfg : AnalyzeConfig)
    (find_cities : ℚ → ℚ → ℚ → ℚ → ℕ → List JValue)
    (lookup_result : Option GeoLocation) (m : RTTMeasurement) (now : ℚ)
    (fp0 : VPNFingerprint) : VPNFingerprint :=
  let location :=
    match fp0.location with
    | some l => some l
    | none => lookup_result
  let rtt_difference_ms : Option ℚ :=
    match m.rtt_difference with
    | some raw_diff => some (max 0 (raw_diff - cfg.vpn_latency_offset_ms))
    | none => none
  let fp1 : VPNFingerprint :=
    { fp0 with
      location := location
      tcp_rtt_ms := m.tcp_rtt
      icmp_rtt_ms := m.icmp_rtt
      confidence := calculate_confidence m
      last_updated := now
      rtt_difference_ms := rtt_difference_ms }
  match rtt_difference_ms with
  | some adjusted =>
      if 0 < adjusted then
        let estimated := rtt_to_distance_km cfg adjusted
        let fp2 : VPNFingerprint :=
          { fp1 with
            estimated_distance_km := some estimated
            is_vpn_likely := decide (0 < adjusted) }
        match location with
        | some loc =>
            if 0 < estimated then
              { fp2 with
                possible_cities :=
                  find_cities loc.latitude loc.longitude estimated
                    (max 50 (estimated * 0.2)) 10 }
            else fp2
        | none => fp2
      else
        { fp1 with
          is_vpn_likely := false
          estimated_distance_km := none
          possible_cities := [] }
  | none =>
      { fp1 with
        is_vpn_likely := false
        estimated_distance_km := none
        possible_cities := [] }

/-! ## General lemmas about the association-list model -/

theorem assocSet_of_get_none {κ ν : Type} [DecidableEq κ]
    {m : List (κ × ν)} {k : κ} (v : ν) (h : assocGet m k = none) :
    assocSet m k v = m ++ [(k, v)] := by
  induction m with
  | nil => rfl
  | cons hd tl ih =>
      obtain ⟨k', v'⟩ := hd
      by_cases hk : k' = k
      · simp [assocGet, hk] at h
      · simp only [assocGet, hk, if_neg, ite_false] at h
        simp [assocSet, hk, ih h]

theorem assocGet_assocSet_self {κ ν : Type} [DecidableEq κ]
    (m : List (κ × ν)) (k : κ) (v : ν) :
    assocGet (assocSet m k v) k = some v := by
  induction m with
  | nil => simp [assocGet, assocSet]
  | cons hd tl ih =>
      obtain ⟨k', v'⟩ := hd
      by_cases hk : k' = k <;> simp [assocGet, assocSet, hk, ih]

theorem assocGet_append_right {κ ν : Type} [DecidableEq κ]
    {m : List (κ × ν)} {k : κ} (v : ν) (h : assocGet m k = none) :
    assocGet (m ++ [(k, v)]) k = some v := by
  induction m with
  | nil => simp [assocGet]
  | cons hd tl ih =>
      obtain ⟨k', v'⟩ := hd
      by_cases hk : k' = k
      · simp [assocGet, hk] at h
      · simp only [assocGet, hk, ite_false] at h
        simp [assocGet, hk, ih h]

/-! ## Theorems about the claims -/

/-- C2 (code_bug evidence): a plain ACK packet — flags `0x10`, SYN clear —
with a nonzero acknowledgment number makes `_process_packet` raise
(`RTTTracker.record_ack` does not exist), for every prior connection state;
the `established` transition from `syn_ack_received` has already been
applied when the exception fires. -/
theorem c2_ack_packet_raises :
    processPacketStep 0x10 1 0 false ConnState.syn_ack_received
      = (ConnState.established, true)
    ∧ processPacketStep 0x10 1 0 false ConnState.unknown
      = (ConnState.unknown, true)
    ∧ processPacketStep 0x10 1 0 false ConnState.established
      = (ConnState.established, true) := by
  decide

/-- C3 counterexample: for the packet `1.1.1.1:5000 → 2.2.2.2:80` the code's
key pairs the minimum IP `1.1.1.1` with port 80 — the port of the *other*
endpoint — refuting "each IP in the key is paired with that same endpoint's
port". -/
theorem c3_counterexample :
    conn_key "1.1.1.1" 5000 "2.2.2.2" 80 = ("1.1.1.1", 80, "2.2.2.2", 5000)
    ∧ conn_key "1.1.1.1" 5000 "2.2.2.2" 80 ≠ ("1.1.1.1", 5000, "2.2.2.2", 80) := by
  have hs : ("1.1.1.1" : String) ≤ "2.2.2.2" := by
    rw [String.le_iff_toList_le]; decide
  have hk : conn_key "1.1.1.1" 5000 "2.2.2.2" 80
      = ("1.1.1.1", 80, "2.2.2.2", 5000) := by
    show (min _ _, min _ _, max _ _, max _ _) = _
    rw [min_eq_left hs, max_eq_right hs]
    norm_num
  refine ⟨hk, ?_⟩
  rw [hk]
  intro hEq
  have : (80 : ℕ) = 5000 := congrArg (fun p => p.2.1) hEq
  omega

/-- C3 amended: the canonical key min/maxes the two IPs and the two ports
componentwise (ports independently of IPs), so a packet and its
reversed-direction reply still map to the same key. -/
theorem c3_amended (a b : String) (pa pb : ℕ) :
    conn_key a pa b pb = conn_key b pb a pa := by
  simp [conn_key, min_comm, max_comm]

/-- C9 counterexample: a SYN-only packet observed while the connection is in
`syn_ack_received` silently resets the state to `syn_sent` — the state moves
backwards although the packet carries neither FIN nor RST. -/
theorem c9_counterexample :
    processPacketStep 0x02 0 0 false ConnState.syn_ack_received
      = (ConnState.syn_sent, false)
    ∧ ¬ (stateRank ConnState.syn_ack_received
          ≤ stateRank (processPacketStep 0x02 0 0 false ConnState.syn_ack_received).1
        ∨ (((0x02 : ℕ) &&& 0x01 ≠ 0 ∨ (0x02 : ℕ) &&& 0x04 ≠ 0)
            ∧ (processPacketStep 0x02 0 0 false ConnState.syn_ack_received).1
              = ConnState.closed)) := by
  decide

/-- C9 amended: when `_process_packet` completes without raising, the state
either advances along the chain, or is forced to `closed` by FIN/RST, or is
reset by a SYN (to `syn_sent`) or SYN-ACK (to `syn_ack_received`) regardless
of the prior state. -/
theorem c9_amended (flags ackNo payloadLen : ℕ) (is_outgoing : Bool)
    (st : ConnState)
    (h : (processPacketStep flags ackNo payloadLen is_outgoing st).2 = false) :
    stateRank st ≤ stateRank (processPacketStep flags ackNo payloadLen is_outgoing st).1
    ∨ ((flags &&& 0x01 ≠ 0 ∨ flags &&& 0x04 ≠ 0)
        ∧ (processPacketStep flags ackNo payloadLen is_outgoing st).1 = ConnState.closed)
    ∨ (flags &&& 0x02 ≠ 0
        ∧ ((processPacketStep flags ackNo payloadLen is_outgoing st).1 = ConnState.syn_sent
          ∨ (processPacketStep flags ackNo payloadLen is_outgoing st).1
              = ConnState.syn_ack_received)) := by
  simp only [processPacketStep] at h ⊢
  split_ifs at h ⊢ <;> simp_all
  cases st <;> simp_all [stateRank]

/-- C9 amended witness: at a concrete no-exception input (ACK completing the
handshake) the amended statement is inhabited. -/
theorem c9_amended_witness :
    stateRank ConnState.syn_ack_received
      ≤ stateRank (processPacketStep 0x10 0 0 false ConnState.syn_ack_received).1
    ∨ (((0x10 : ℕ) &&& 0x01 ≠ 0 ∨ (0x10 : ℕ) &&& 0x04 ≠ 0)
        ∧ (processPacketStep 0x10 0 0 false ConnState.syn_ack_received).1 = ConnState.closed)
    ∨ ((0x10 : ℕ) &&& 0x02 ≠ 0
        ∧ ((processPacketStep 0x10 0 0 false ConnState.syn_ack_received).1 = ConnState.syn_sent
          ∨ (processPacketStep 0x10 0 0 false ConnState.syn_ack_received).1
              = ConnState.syn_ack_received)) :=
  c9_amended 0x10 0 0 false ConnState.syn_ack_received (by decide)

/-- C10: reading `get_measurement(ip)` for an unknown IP mutates the tracker,
appending a fresh empty measurement under that key, so `get_all_measurements`
afterwards lists that IP although no sample was ever recorded. -/
theorem c10_get_measurement_inserts (t : RTTTracker) (now : ℚ) (ip : String)
    (h : assocGet t.measurements ip = none) :
    (t.get_measurement now ip).2.measurements
      = t.measurements ++ [(ip, { last_updated := now })]
    ∧ ((t.get_measurement now ip).2.get_all_measurements).map Prod.fst
      = t.measurements.map Prod.fst ++ [ip] := by
  have hmeas : (t.get_measurement now ip).2.measurements
      = t.measurements ++ [(ip, { last_updated := now })] := by
    simp [RTTTracker.get_measurement, RTTTracker.measurementEntry, h,
      assocSet_of_get_none _ h]
  exact ⟨hmeas, by simp [RTTTracker.get_all_measurements, hmeas]⟩

/-- C10 witness: on a fresh tracker, asking for a never-seen IP makes it
appear in `get_all_measurements`. -/
theorem c10_witness :
    (RTTTracker.init.get_measurement 0 "198.51.100.7").2.measurements
      = [("198.51.100.7", { last_updated := 0 })]
    ∧ ((RTTTracker.init.get_measurement 0 "198.51.100.7").2.get_all_measurements).map Prod.fst
      = [] ++ ["198.51.100.7"] := by
  have h := c10_get_measurement_inserts RTTTracker.init 0 "198.51.100.7" rfl
  simpa [RTTTracker.init] using h

/-- C5: from a fresh tracker, `record_syn(A,pa,B,pb)` followed by
`record_syn_ack(B,pb,A,pa)` yields exactly one TCP sample, keyed by peer `B`
and equal to `(t2 - t1) * 1000`; a `record_syn_ack` with any other argument
tuple appends nothing and returns `None`, and so does a second
`record_syn_ack` for the same handshake. -/
theorem c5_handshake (A B X Y : String) (pa pb p1 p2 : ℕ) (t1 t2 t3 : ℚ) :
    ((RTTTracker.init.record_syn t1 A pa B pb).record_syn_ack t2 B pb A pa).1
      = some ((t2 - t1) * 1000)
    ∧ ((RTTTracker.init.record_syn t1 A pa B pb).record_syn_ack t2 B pb A pa).2.measurements
      = [(B, { tcp_rtt_samples := [(t2 - t1) * 1000], icmp_rtt_samples := [],
               last_updated := t2 })]
    ∧ ((X, p1, Y, p2) ≠ ((B, pb, A, pa) : FlowKey) →
        (RTTTracker.init.record_syn t1 A pa B pb).record_syn_ack t3 X p1 Y p2
          = (none, RTTTracker.init.record_syn t1 A pa B pb))
    ∧ ((RTTTracker.init.record_syn t1 A pa B pb).record_syn_ack t2 B pb A pa).2.record_syn_ack
          t3 B pb A pa
        = (none, ((RTTTracker.init.record_syn t1 A pa B pb).record_syn_ack t2 B pb A pa).2) := by
  refine ⟨?_, ?_, ?_, ?_⟩
  · simp [RTTTracker.init, RTTTracker.record_syn, RTTTracker.record_syn_ack,
      assocGet, assocSet]
  · simp [RTTTracker.init, RTTTracker.record_syn, RTTTracker.record_syn_ack,
      assocGet, assocSet, assocRemove, RTTTracker.measurementEntry,
      RTTMeasurement.add_tcp_sample, keepLast]
  · intro hne
    simp only [RTTTracker.init, RTTTracker.record_syn, RTTTracker.record_syn_ack,
      assocGet, assocSet]
    rw [if_neg]
    · intro hEq
      apply hne
      simp only [Prod.ext_iff] at hEq ⊢
      exact ⟨hEq.2.2.1.symm, hEq.2.2.2.symm, hEq.1.symm, hEq.2.1.symm⟩
  · simp [RTTTracker.init, RTTTracker.record_syn, RTTTracker.record_syn_ack,
      assocGet, assocSet, assocRemove, RTTTracker.measurementEntry,
      RTTMeasurement.add_tcp_sample, keepLast]

/-- C5 witness: a concrete handshake at times 0 and 1 yields the 1000 ms
sample, and a mismatched SYN-ACK tuple is ignored. -/
theorem c5_handshake_witness :
    ((RTTTracker.init.record_syn 0 "10.0.0.2" 443 "93.184.216.34" 51000).record_syn_ack
        1 "93.184.216.34" 51000 "10.0.0.2" 443).1 = some 1000
    ∧ (RTTTracker.init.record_syn 0 "10.0.0.2" 443 "93.184.216.34" 51000).record_syn_ack
        2 "93.184.216.34" 51001 "10.0.0.2" 443
      = (none, RTTTracker.init.record_syn 0 "10.0.0.2" 443 "93.184.216.34" 51000) := by
  have h := c5_handshake "10.0.0.2" "93.184.216.34" "93.184.216.34" "10.0.0.2"
    443 51000 51001 443 0 1 2
  refine ⟨?_, h.2.2.1 (by decide)⟩
  have h1 := h.1
  norm_num at h1
  exact h1

/-- The confidence score is always in the unit interval, whichever branch of
`_calculate_confidence` fires. -/
theorem calculate_confidence_bounds (m : RTTMeasurement) :
    0 ≤ calculate_confidence m ∧ calculate_confidence m ≤ 1 := by
  have hvar : (0:ℚ) ≤
      ((m.tcp_rtt_samples.map (fun x => (x - m.tcp_rtt.getD 0) ^ 2)).sum) /
        (m.tcp_rtt_samples.length : ℚ) := by
    apply div_nonneg
    · apply List.sum_nonneg
      intro x hx
      simp only [List.mem_map] at hx
      obtain ⟨y, _, rfl⟩ := hx
      positivity
    · positivity
  have hts0 : (0:ℚ) ≤ min ((m.tcp_rtt_samples.length : ℚ) / 10) 1 :=
    le_min (by positivity) zero_le_one
  have hts1 : min ((m.tcp_rtt_samples.length : ℚ) / 10) 1 ≤ 1 := min_le_right _ _
  have his0 : (0:ℚ) ≤ min ((m.icmp_rtt_samples.length : ℚ) / 5) 1 :=
    le_min (by positivity) zero_le_one
  have his1 : min ((m.icmp_rtt_samples.length : ℚ) / 5) 1 ≤ 1 := min_le_right _ _
  have hvs0 : (0:ℚ) ≤ max 0
      (1 - ((m.tcp_rtt_samples.map (fun x => (x - m.tcp_rtt.getD 0) ^ 2)).sum) /
        (m.tcp_rtt_samples.length : ℚ) / 100) := le_max_left _ _
  have hvs1 : max 0
      (1 - ((m.tcp_rtt_samples.map (fun x => (x - m.tcp_rtt.getD 0) ^ 2)).sum) /
        (m.tcp_rtt_samples.length : ℚ) / 100) ≤ 1 :=
    max_le zero_le_one (by linarith)
  simp only [calculate_confidence]
  split_ifs <;> constructor
  all_goals try exact min_le_right _ _
  all_goals try
    (refine le_min ?_ zero_le_one; nlinarith [hvs0, hvs1, hts0, hts1, his0, his1])
  all_goals nlinarith [hvs0, hvs1, hts0, hts1, his0, his1]

/-- Every branch of `analyze_ip` writes `confidence` from
`_calculate_confidence`. -/
theorem analyze_update_confidence (cfg : AnalyzeConfig)
    (find_cities : ℚ → ℚ → ℚ → ℚ → ℕ → List JValue)
    (lookup_result : Option GeoLocation) (m : RTTMeasurement) (now : ℚ)
    (fp0 : VPNFingerprint) :
    (analyze_update cfg find_cities lookup_result m now fp0).confidence
      = calculate_confidence m := by
  simp only [analyze_update]
  split <;> (try split_ifs) <;> (try split) <;> rfl

/-- C7: for every measurement record, the confidence computed by
`analyze_ip` lies in the unit interval. -/
theorem c7_confidence_in_unit_interval (cfg : AnalyzeConfig)
    (find_cities : ℚ → ℚ → ℚ → ℚ → ℕ → List JValue)
    (lookup_result : Option GeoLocation) (m : RTTMeasurement) (now : ℚ)
    (fp0 : VPNFingerprint) :
    0 ≤ (analyze_update cfg find_cities lookup_result m now fp0).confidence
    ∧ (analyze_update cfg find_cities lookup_result m now fp0).confidence ≤ 1 := by
  rw [analyze_update_confidence]
  exact calculate_confidence_bounds m

/-- C1 counterexample: with TCP samples `[20]`, ICMP samples `[10]` (adjusted
difference 10 > 0) but *no* location, `analyze_ip` still sets
`is_vpn_likely = true`, keeps `estimated_distance_km = 1000` and leaves the
stale `possible_cities` untouched — the claim demands `is_vpn_likely = false`
and cleared fields when the location is unknown. -/
theorem c1_counterexample :
    (analyze_update {} (fun _ _ _ _ _ => [JValue.str "fresh"]) none
        { tcp_rtt_samples := [20], icmp_rtt_samples := [10], last_updated := 0 } 7
        { ip := "203.0.113.9", possible_cities := [JValue.str "stale"] }).is_vpn_likely
      = true
    ∧ (analyze_update {} (fun _ _ _ _ _ => [JValue.str "fresh"]) none
        { tcp_rtt_samples := [20], icmp_rtt_samples := [10], last_updated := 0 } 7
        { ip := "203.0.113.9", possible_cities := [JValue.str "stale"] }).location
      = none
    ∧ (analyze_update {} (fun _ _ _ _ _ => [JValue.str "fresh"]) none
        { tcp_rtt_samples := [20], icmp_rtt_samples := [10], last_updated := 0 } 7
        { ip := "203.0.113.9", possible_cities := [JValue.str "stale"] }).estimated_distance_km
      = some 1000
    ∧ (analyze_update {} (fun _ _ _ _ _ => [JValue.str "fresh"]) none
        { tcp_rtt_samples := [20], icmp_rtt_samples := [10], last_updated := 0 } 7
        { ip := "203.0.113.9", possible_cities := [JValue.str "stale"] }).possible_cities
      = [JValue.str "stale"] := by
  refine ⟨?_, ?_, ?_, ?_⟩ <;>
    norm_num [analyze_update, RTTMeasurement.rtt_difference, RTTMeasurement.tcp_rtt,
      RTTMeasurement.icmp_rtt, List.min?, rtt_to_distance_km]

/-- C1 amended: `is_vpn_likely` is true exactly when the adjusted difference
`max(0, raw_diff - vpn_latency_offset_ms)` is defined and positive,
*independently of the location*; when it is false the distance and city list
are cleared; when it is true but the location is unknown the previous
`possible_cities` value is retained (not cleared). -/
theorem c1_amended (cfg : AnalyzeConfig)
    (fc : ℚ → ℚ → ℚ → ℚ → ℕ → List JValue)
    (lookup_result : Option GeoLocation) (m : RTTMeasurement) (now : ℚ)
    (fp0 : VPNFingerprint) :
    ((analyze_update cfg fc lookup_result m now fp0).is_vpn_likely = true ↔
      (∃ raw, m.rtt_difference = some raw
        ∧ 0 < max 0 (raw - cfg.vpn_latency_offset_ms)))
    ∧ ((analyze_update cfg fc lookup_result m now fp0).is_vpn_likely = false →
        (analyze_update cfg fc lookup_result m now fp0).estimated_distance_km = none
        ∧ (analyze_update cfg fc lookup_result m now fp0).possible_cities = [])
    ∧ ((analyze_update cfg fc lookup_result m now fp0).is_vpn_likely = true →
        (analyze_update cfg fc lookup_result m now fp0).location = none →
        (analyze_update cfg fc lookup_result m now fp0).possible_cities
          = fp0.possible_cities) := by
  rcases hmd : m.rtt_difference with _ | raw <;>
    simp only [analyze_update, hmd]
  · simp
  · split_ifs with hpos hest <;> try (split <;> rename_i hl)
    all_goals refine ⟨?_, ?_, ?_⟩
    all_goals simp_all

/-- C1 amended witness: at the counterexample input the positive-difference,
unknown-location branch keeps the stale city list. -/
theorem c1_amended_witness :
    (analyze_update {} (fun _ _ _ _ _ => [JValue.str "fresh"]) none
        { tcp_rtt_samples := [20], icmp_rtt_samples := [10], last_updated := 0 } 7
        { ip := "203.0.113.9", possible_cities := [JValue.str "stale"] }).possible_cities
      = ({ ip := "203.0.113.9", possible_cities := [JValue.str "stale"] }
          : VPNFingerprint).possible_cities :=
  (c1_amended {} (fun _ _ _ _ _ => [JValue.str "fresh"]) none
      { tcp_rtt_samples := [20], icmp_rtt_samples := [10], last_updated := 0 } 7
      { ip := "203.0.113.9", possible_cities := [JValue.str "stale"] }).2.2
    (by norm_num [analyze_update, RTTMeasurement.rtt_difference, RTTMeasurement.tcp_rtt,
      RTTMeasurement.icmp_rtt, List.min?])
    (by norm_num [analyze_update, RTTMeasurement.rtt_difference, RTTMeasurement.tcp_rtt,
      RTTMeasurement.icmp_rtt, List.min?])

/-- C4 counterexample: a successful lookup of the public IP `8.8.8.8` (local
database tier answering) returns the location, yet the durable geo-cache
table is still empty afterwards — `lookup` never calls `save_geo_cache`, so
the claimed write to the Store does not happen. -/
theorem c4_counterexample :
    (GeoLocator.lookup (some { ip := "8.8.8.8", latitude := 37, longitude := -122 })
        none none 0 true {} [] "8.8.8.8").1
      = some { ip := "8.8.8.8", latitude := 37, longitude := -122 }
    ∧ (GeoLocator.lookup (some { ip := "8.8.8.8", latitude := 37, longitude := -122 })
        none none 0 true {} [] "8.8.8.8").2.2
      = ([] : List GeoCacheRow) := by
  constructor <;> rfl

/-- C4 amended: `lookup` leaves the durable geo-cache untouched in every
case; for a non-private IP missing from the in-memory cache it returns the
first non-null tier result (local database, then provider A, then provider
B) and records a success in the in-memory cache only. -/
theorem c4_amended (g a i : Option GeoLocation) (now : ℚ) (s : GeoState)
    (store : List GeoCacheRow) (ip : String) :
    (GeoLocator.lookup g a i now true s store ip).2.2 = store
    ∧ (is_private_ip ip = false →
        assocGet s.cache ip = none →
        (GeoLocator.lookup g a i now true s store ip).1
          = first_tier_result g a i
        ∧ (∀ loc, first_tier_result g a i = some loc →
            assocGet (GeoLocator.lookup g a i now true s store ip).2.1.cache ip
              = some loc
            ∧ assocGet (GeoLocator.lookup g a i now true s store ip).2.1.cache_time ip
              = some now)) := by
  constructor
  · simp only [GeoLocator.lookup]
    split_ifs <;> (try split) <;> (try split) <;> rfl
  · intro hpriv hmiss
    simp only [GeoLocator.lookup, hpriv, Bool.false_eq_true, if_false, if_true,
      hmiss]
    constructor
    · split <;> rename_i heq <;> rw [heq]
    · intro loc hloc
      rw [hloc]
      exact ⟨assocGet_assocSet_self _ _ _, assocGet_assocSet_self _ _ _⟩

/-- C4 amended witness: concrete successful lookup through the first tier
ends up in the in-memory cache. -/
theorem c4_amended_witness :
    assocGet (GeoLocator.lookup
        (some { ip := "8.8.8.8", latitude := 37, longitude := -122 })
        none none 0 true {} [] "8.8.8.8").2.1.cache "8.8.8.8"
      = some { ip := "8.8.8.8", latitude := 37, longitude := -122 }
    ∧ assocGet (GeoLocator.lookup
        (some { ip := "8.8.8.8", latitude := 37, longitude := -122 })
        none none 0 true {} [] "8.8.8.8").2.1.cache_time "8.8.8.8"
      = some 0 :=
  ((c4_amended (some { ip := "8.8.8.8", latitude := 37, longitude := -122 })
      none none 0 {} [] "8.8.8.8").2 (by rfl) rfl).2
    { ip := "8.8.8.8", latitude := 37, longitude := -122 } rfl

/-- The upserted row is present in the table afterwards. -/
theorem mem_upsertRow (db : List FingerprintRow) (row : FingerprintRow) :
    row ∈ upsertRow db row := by
  unfold upsertRow
  split_ifs with h
  · rw [List.any_eq_true] at h
    obtain ⟨r, hr, heq⟩ := h
    rw [beq_iff_eq] at heq
    exact List.mem_map.mpr ⟨r, hr, by simp [heq]⟩
  · simp

/-- C8: after `save_fingerprint(f)`, `load_all_fingerprints()` contains an
entry for `f`'s IP in which every field equals the saved value: the location
and city list survive the JSON round-trip and `is_vpn_likely` survives the
0/1 integer encoding. -/
theorem c8_roundtrip (db : List FingerprintRow) (f : VPNFingerprint) :
    ∃ e ∈ Database.load_all_fingerprints (save_fingerprint_of f db),
      e.ip = f.ip
      ∧ e.location = f.location.map (fun l => JValue.obj l.to_dict)
      ∧ e.tcp_rtt_ms = f.tcp_rtt_ms
      ∧ e.icmp_rtt_ms = f.icmp_rtt_ms
      ∧ e.rtt_difference_ms = f.rtt_difference_ms
      ∧ e.estimated_distance_km = f.estimated_distance_km
      ∧ e.possible_cities = JValue.arr f.possible_cities
      ∧ e.confidence = f.confidence
      ∧ e.last_updated = f.last_updated
      ∧ e.is_vpn_likely = f.is_vpn_likely := by
  refine ⟨Database.load_row
      (fingerprint_row f.ip (f.location.map GeoLocation.to_dict) f.tcp_rtt_ms
        f.icmp_rtt_ms f.rtt_difference_ms f.estimated_distance_km
        f.possible_cities f.confidence f.last_updated f.is_vpn_likely),
    List.mem_map.mpr ⟨_, mem_upsertRow db _, rfl⟩, ?_⟩
  refine ⟨rfl, ?_, rfl, rfl, rfl, rfl, rfl, rfl, rfl, ?_⟩
  · rcases f.location with _ | l
    · rfl
    · simp [Database.load_row, fingerprint_row, GeoLocation.to_dict]
  · rcases hb : f.is_vpn_likely <;>
      simp [Database.load_row, fingerprint_row, hb]

/-- The ring-sort comparison is total. -/
theorem ringSortLe_total (a b : RingCity) :
    (ringSortLe a b || ringSortLe b a) = true := by
  simp only [ringSortLe, Bool.or_eq_true, Bool.and_eq_true, decide_eq_true_eq]
  rcases lt_trichotomy a.city.population b.city.population with h | h | h
  · exact Or.inr (Or.inl h)
  · rcases le_total a.distance_from_ring b.distance_from_ring with hd | hd
    · exact Or.inl (Or.inr ⟨h, hd⟩)
    · exact Or.inr (Or.inr ⟨h.symm, hd⟩)
  · exact Or.inl (Or.inl h)

/-- The ring-sort comparison is transitive. -/
theorem ringSortLe_trans (a b c : RingCity) :
    ringSortLe a b = true → ringSortLe b c = true → ringSortLe a c = true := by
  simp only [ringSortLe, Bool.or_eq_true, Bool.and_eq_true, decide_eq_true_eq]
  rintro (hab | ⟨hab, hdab⟩) (hbc | ⟨hbc, hdbc⟩)
  · exact Or.inl (lt_trans hbc hab)
  · exact Or.inl (hbc ▸ hab)
  · exact Or.inl (hab ▸ hbc)
  · exact Or.inr ⟨hab.trans hbc, le_trans hdab hdbc⟩

/-- What `find_cities_near_ring` guarantees for any city list: bounded
length, each entry drawn from the list with its true distances and within
tolerance, and the population-then-ring-distance ordering. -/
theorem near_ring_spec (cities : List City) (lat lon r tol : ℝ) (k : ℕ) :
    (find_cities_near_ring cities lat lon r tol k).length ≤ k
    ∧ (find_cities_near_ring cities lat lon r tol k).Forall (fun h =>
        h.city ∈ cities
        ∧ h.distance_from_center
            = haversine_distance lat lon h.city.latitude h.city.longitude
        ∧ h.distance_from_ring = |h.distance_from_center - r|
        ∧ h.distance_from_ring ≤ tol)
    ∧ (find_cities_near_ring cities lat lon r tol k).Pairwise (fun a b =>
        b.city.population < a.city.population
        ∨ (a.city.population = b.city.population
            ∧ a.distance_from_ring ≤ b.distance_from_ring)) := by
  refine ⟨?_, ?_, ?_⟩
  · simp only [find_cities_near_ring]
    exact List.length_take_le _ _
  · rw [List.forall_iff_forall_mem]
    intro x hx
    simp only [find_cities_near_ring] at hx
    have hx1 := List.mem_of_mem_take hx
    have hx2 := (List.mergeSort_perm _ ringSortLe).mem_iff.mp hx1
    rw [List.mem_filterMap] at hx2
    obtain ⟨city, hcity, heq⟩ := hx2
    split_ifs at heq with hc
    · cases heq
      exact ⟨hcity, rfl, rfl, hc⟩
  · have hs := List.sorted_mergeSort ringSortLe_trans
      ringSortLe_total (cities.filterMap (fun city =>
        let distance := haversine_distance lat lon city.latitude city.longitude
        let distance_from_ring := |distance - r|
        if distance_from_ring ≤ tol then
          some { city := city, distance_from_center := distance,
                 distance_from_ring := distance_from_ring }
        else none))
    have htake : (find_cities_near_ring cities lat lon r tol k).Pairwise
        (fun a b => ringSortLe a b = true) :=
      List.Pairwise.sublist (List.take_sublist _ _) hs
    refine htake.imp ?_
    intro a b hab
    simpa only [ringSortLe, Bool.or_eq_true, Bool.and_eq_true,
      decide_eq_true_eq] using hab

/-- C6: on the bundled city list, `find_cities_near_ring` returns at most
`max_results` entries, each a city of the dataset at haversine distance `d`
from the center with `|d - r| ≤ tolerance`, sorted by population descending
and then by `|d - r|` ascending. -/
theorem c6_near_ring (lat lon r tol : ℝ) (k : ℕ) :
    (find_cities_near_ring MAJOR_CITIES lat lon r tol k).length ≤ k
    ∧ (find_cities_near_ring MAJOR_CITIES lat lon r tol k).Forall (fun h =>
        h.city ∈ MAJOR_CITIES
        ∧ h.distance_from_center
            = haversine_distance lat lon h.city.latitude h.city.longitude
        ∧ h.distance_from_ring = |h.distance_from_center - r|
        ∧ h.distance_from_ring ≤ tol)
    ∧ (find_cities_near_ring MAJOR_CITIES lat lon r tol k).Pairwise (fun a b =>
        b.city.population < a.city.population
        ∨ (a.city.population = b.city.population
            ∧ a.distance_from_ring ≤ b.distance_from_ring)) :=
  near_ring_spec MAJOR_CITIES lat lon r tol k

end Parkranger
